import Mathlib

/-!
Shallow embedding of the two Sublime Text plugins in this repository,
`CPickSublimeText/plugin.py` and `QuickPickSublimeText/plugin.py`.

Each plugin's `run` method reads the current selection, reads its last
element (`sel[len(sel) - 1]`, which raises `IndexError` on an empty
selection), and then loops over the selection's regions: for each region it
takes the anchor offset `r.a`, decomposes it with `view.rowcol`, adds the
row number when the document uses Windows line endings, and calls
`subprocess.Popen([tool, "<path>@<offset>"], shell=True)`.

The host API surface the plugins consume (`sublime.View`, `sublime.Region`)
is modelled as plain data; the sequence of `Popen` calls is the observable
output, collected in order.
-/

/-- A Sublime `Region`: a span of the document with anchor point `a` and
active point `b`, both raw zero-based character offsets. -/
structure Region where
  a : Nat
  b : Nat
deriving DecidableEq, Repr

/-- The slice of the Sublime `View` API the plugins read: `file_name()`
(`none` for an unsaved buffer), `line_endings()` (one of `"Windows"`,
`"Unix"`, `"CR"`), `sel()` (the ordered selection), and `rowcol(point)`
(the host's decomposition of an offset into a zero-based row and column). -/
structure View where
  file_name : Option String
  line_endings : String
  sel : List Region
  rowcol : Nat → Nat × Nat

/-- One `subprocess.Popen(args, shell=True)` call: the argument list passed
to `Popen` and the `shell` flag. -/
structure Spawn where
  args : List String
  shell : Bool
deriving DecidableEq, Repr

/-- The one Python exception the command can raise before spawning. -/
inductive PyError where
  | indexError
deriving DecidableEq, Repr

/-- Python sequence indexing `xs[i]`: a negative index counts from the end
of the sequence, and an index that is still out of range raises
`IndexError`, modelled as `none`. -/
def pyGetElem {α : Type} (xs : List α) (i : Int) : Option α :=
  let j : Int := if i < 0 then i + xs.length else i
  if j < 0 then none else xs.get? j.toNat

/-- How `str.format` renders an `Optional[str]` field: `None` prints as
`"None"`, a string prints as itself. -/
def pyStr : Option String → String
  | none => "None"
  | some s => s

/-- The format call on line 15 of each plugin, joining the file name and
the offset with a single at-sign and nothing else. -/
def formatAt (x y : String) : String := x ++ "@" ++ y

/-- Lines 11 to 14 of the loop body: take the region's anchor offset `b`,
decompose it as `row, col = view.rowcol(b)`, and perform `b += row` exactly
when `view.line_endings() == "Windows"`. -/
def adjustOffset (view : View) (b : Nat) : Nat :=
  let (row, _col) := view.rowcol b
  if view.line_endings = "Windows" then b + row else b

/-- The launch-target string built for a region anchored at offset `b`:
the second element of the `Popen` argument list. -/
def launchTarget (view : View) (b : Nat) : String :=
  formatAt (pyStr view.file_name) (toString (adjustOffset view b))

/-- The `Popen` call issued for one region by the cpick plugin. -/
def cpickSpawn (view : View) (r : Region) : Spawn :=
  { args := ["cpick", launchTarget view r.a], shell := true }

/-- The `Popen` call issued for one region by the quickpick plugin. -/
def quickpickSpawn (view : View) (r : Region) : Spawn :=
  { args := ["quickpick", launchTarget view r.a], shell := true }

/-- `OpenCpickOnSelection.run` from `CPickSublimeText/plugin.py`: reads
`sel[len(sel) - 1]` (raising `IndexError` on an empty selection), then
emits one `Popen` call per region of the selection, in selection order. -/
def OpenCpickOnSelection.run (view : View) : Except PyError (List Spawn) :=
  let sel := view.sel
  match pyGetElem sel ((sel.length : Int) - 1) with
  | none => Except.error PyError.indexError
  | some _last => Except.ok (sel.map (cpickSpawn view))

/-- `OpenQuickpickOnSelection.run` from `QuickPickSublimeText/plugin.py`:
identical to the cpick plugin except for the tool name in the `Popen`
argument list. -/
def OpenQuickpickOnSelection.run (view : View) : Except PyError (List Spawn) :=
  let sel := view.sel
  match pyGetElem sel ((sel.length : Int) - 1) with
  | none => Except.error PyError.indexError
  | some _last => Except.ok (sel.map (quickpickSpawn view))

/-- `OpenCpickOnSelection.run` with the fate of each `Popen` call made
explicit: `popen` assigns every spawned process an outcome (`true` for a
successful launch), which the loop binds to `p` and never inspects. -/
def OpenCpickOnSelection.runPopen (view : View) (popen : Spawn → Bool) :
    Except PyError (List (Spawn × Bool)) :=
  let sel := view.sel
  match pyGetElem sel ((sel.length : Int) - 1) with
  | none => Except.error PyError.indexError
  | some _last =>
      Except.ok (sel.map fun r =>
        let s := cpickSpawn view r
        let p := popen s
        (s, p))

/-- `OpenQuickpickOnSelection.run` with the fate of each `Popen` call made
explicit, as for the cpick plugin. -/
def OpenQuickpickOnSelection.runPopen (view : View) (popen : Spawn → Bool) :
    Except PyError (List (Spawn × Bool)) :=
  let sel := view.sel
  match pyGetElem sel ((sel.length : Int) - 1) with
  | none => Except.error PyError.indexError
  | some _last =>
      Except.ok (sel.map fun r =>
        let s := quickpickSpawn view r
        let p := popen s
        (s, p))

/-- The ten decimal digit characters. -/
def decDigits : List Char := ['0', '1', '2', '3', '4', '5', '6', '7', '8', '9']

/-! ### Concrete views used to exercise the embedding -/

/-- A host decomposition placing every offset on row 0. -/
def rc0 : Nat → Nat × Nat := fun b => (0, b)

/-- A Windows-line-endings view with one region anchored at offset 5 on row 1. -/
def vWin : View :=
  { file_name := some "/t", line_endings := "Windows", sel := [⟨5, 9⟩],
    rowcol := fun b => (1, b + 1) }

/-- A Unix-line-endings view with one region anchored at offset 7. -/
def vUnix : View :=
  { file_name := some "/t", line_endings := "Unix", sel := [⟨7, 8⟩], rowcol := rc0 }

/-- A view with an empty selection. -/
def vEmpty : View :=
  { file_name := some "/t", line_endings := "Unix", sel := [], rowcol := rc0 }

/-- A view whose single region ends at offset 4. -/
def vEndA : View :=
  { file_name := some "/t", line_endings := "Unix", sel := [⟨3, 4⟩], rowcol := rc0 }

/-- The same view as `vEndA` except the region's end moved to offset 9. -/
def vEndB : View :=
  { file_name := some "/t", line_endings := "Unix", sel := [⟨3, 9⟩], rowcol := rc0 }

/-- The spec's two-region scenario: anchors at raw offsets 10 (row 0) and
30 (row 2), Windows line endings. -/
def viewScenario : View :=
  { file_name := some "/tmp/a.txt", line_endings := "Windows",
    sel := [⟨10, 12⟩, ⟨30, 34⟩],
    rowcol := fun b => if b < 24 then (0, b) else (2, b - 26) }

/-! ### Basic lemmas about the embedding -/

theorem adjustOffset_eq (view : View) (b : Nat) :
    adjustOffset view b
      = if view.line_endings = "Windows" then b + (view.rowcol b).1 else b := rfl

theorem pyGetElem_last {α : Type} (xs : List α) (h : xs ≠ []) :
    ∃ x, pyGetElem xs ((xs.length : Int) - 1) = some x := by
  have hlen : 0 < xs.length := List.length_pos.mpr h
  have h1 : ¬ ((xs.length : Int) - 1 < 0) := by omega
  have h2 : ((xs.length : Int) - 1).toNat = xs.length - 1 := by omega
  have h3 : xs.length - 1 < xs.length := by omega
  refine ⟨xs.get ⟨xs.length - 1, h3⟩, ?_⟩
  simp only [pyGetElem, if_neg h1, h2]
  exact List.get?_eq_get h3

theorem cpick_run_ok (view : View) (h : view.sel ≠ []) :
    OpenCpickOnSelection.run view = Except.ok (view.sel.map (cpickSpawn view)) := by
  obtain ⟨x, hx⟩ := pyGetElem_last view.sel h
  simp only [OpenCpickOnSelection.run, hx]

theorem quickpick_run_ok (view : View) (h : view.sel ≠ []) :
    OpenQuickpickOnSelection.run view = Except.ok (view.sel.map (quickpickSpawn view)) := by
  obtain ⟨x, hx⟩ := pyGetElem_last view.sel h
  simp only [OpenQuickpickOnSelection.run, hx]

theorem cpick_runPopen_ok (view : View) (popen : Spawn → Bool) (h : view.sel ≠ []) :
    OpenCpickOnSelection.runPopen view popen
      = Except.ok (view.sel.map fun r => (cpickSpawn view r, popen (cpickSpawn view r))) := by
  obtain ⟨x, hx⟩ := pyGetElem_last view.sel h
  simp only [OpenCpickOnSelection.runPopen, hx]

theorem quickpick_runPopen_ok (view : View) (popen : Spawn → Bool) (h : view.sel ≠ []) :
    OpenQuickpickOnSelection.runPopen view popen
      = Except.ok (view.sel.map fun r => (quickpickSpawn view r, popen (quickpickSpawn view r))) := by
  obtain ⟨x, hx⟩ := pyGetElem_last view.sel h
  simp only [OpenQuickpickOnSelection.runPopen, hx]

/-! ### Decimal rendering of the offset -/

theorem digitChar_mem_decDigits (m : Nat) (h : m < 10) : Nat.digitChar m ∈ decDigits := by
  interval_cases m <;> decide

theorem toDigitsCore_mem_decDigits :
    ∀ (f n : Nat) (ds : List Char), (∀ c ∈ ds, c ∈ decDigits) →
      ∀ c ∈ Nat.toDigitsCore 10 f n ds, c ∈ decDigits := by
  intro f
  induction f with
  | zero => intro n ds hds; simpa [Nat.toDigitsCore] using hds
  | succ f ih =>
    intro n ds hds c hc
    simp only [Nat.toDigitsCore] at hc
    by_cases hx : n / 10 = 0
    · rw [if_pos hx] at hc
      rcases List.mem_cons.mp hc with rfl | hmem
      · exact digitChar_mem_decDigits _ (Nat.mod_lt _ (by decide))
      · exact hds c hmem
    · rw [if_neg hx] at hc
      refine ih (n / 10) (Nat.digitChar (n % 10) :: ds) ?_ c hc
      intro d hd
      rcases List.mem_cons.mp hd with rfl | hmem
      · exact digitChar_mem_decDigits _ (Nat.mod_lt _ (by decide))
      · exact hds d hmem

theorem repr_data_mem_decDigits (n : Nat) : ∀ c ∈ (Nat.repr n).data, c ∈ decDigits := by
  intro c hc
  have hrepr : (Nat.repr n).data = Nat.toDigitsCore 10 (n + 1) n [] := rfl
  rw [hrepr] at hc
  exact toDigitsCore_mem_decDigits (n + 1) n [] (by simp) c hc

theorem toDigitsCore_length_mono :
    ∀ (f n : Nat) (ds : List Char), ds.length ≤ (Nat.toDigitsCore 10 f n ds).length := by
  intro f
  induction f with
  | zero => intro n ds; simp [Nat.toDigitsCore]
  | succ f ih =>
    intro n ds
    simp only [Nat.toDigitsCore]
    by_cases hx : n / 10 = 0
    · rw [if_pos hx]; simp
    · rw [if_neg hx]
      calc ds.length ≤ (Nat.digitChar (n % 10) :: ds).length := by simp
        _ ≤ _ := ih (n / 10) (Nat.digitChar (n % 10) :: ds)

theorem repr_data_ne_nil (n : Nat) : (Nat.repr n).data ≠ [] := by
  have hrepr : (Nat.repr n).data = Nat.toDigitsCore 10 (n + 1) n [] := rfl
  rw [hrepr]
  simp only [Nat.toDigitsCore]
  by_cases hx : n / 10 = 0
  · rw [if_pos hx]; simp
  · rw [if_neg hx]
    have h1 := toDigitsCore_length_mono n (n / 10) [Nat.digitChar (n % 10)]
    intro hnil
    rw [hnil] at h1
    simp at h1

theorem decDigits_not_ws {c : Char} (hc : c ∈ decDigits) : c.isWhitespace = false := by
  fin_cases hc <;> decide

theorem decDigits_ne_atSign {c : Char} (hc : c ∈ decDigits) : c ≠ '@' := by
  fin_cases hc <;> decide

theorem toString_nat_eq_repr (n : Nat) : toString n = Nat.repr n := rfl

/-! ### Behaviour on an empty selection -/

theorem cpick_run_empty (view : View) (h : view.sel = []) :
    OpenCpickOnSelection.run view = Except.error PyError.indexError := by
  simp only [OpenCpickOnSelection.run, h]
  rfl

theorem quickpick_run_empty (view : View) (h : view.sel = []) :
    OpenQuickpickOnSelection.run view = Except.error PyError.indexError := by
  simp only [OpenQuickpickOnSelection.run, h]
  rfl

theorem cpick_runPopen_empty (view : View) (popen : Spawn → Bool) (h : view.sel = []) :
    OpenCpickOnSelection.runPopen view popen = Except.error PyError.indexError := by
  simp only [OpenCpickOnSelection.runPopen, h]
  rfl

theorem quickpick_runPopen_empty (view : View) (popen : Spawn → Bool) (h : view.sel = []) :
    OpenQuickpickOnSelection.runPopen view popen = Except.error PyError.indexError := by
  simp only [OpenQuickpickOnSelection.runPopen, h]
  rfl

theorem except_map_ok {α β γ : Type} (f : β → γ) (x : β) :
    Except.map f (Except.ok x : Except α β) = Except.ok (f x) := rfl

/-! ### Claim theorems -/

/-- C10: on an empty selection, reading `sel[len(sel) - 1]` raises
`IndexError` before the loop is entered, so both commands abort with the
indexing error and no spawn is attempted. -/
theorem empty_selection_raises_index_error (view : View) (h : view.sel = []) :
    OpenCpickOnSelection.run view = Except.error PyError.indexError
  ∧ OpenQuickpickOnSelection.run view = Except.error PyError.indexError :=
  ⟨cpick_run_empty view h, quickpick_run_empty view h⟩

theorem empty_selection_raises_index_error_witness :
    OpenCpickOnSelection.run vEmpty = Except.error PyError.indexError
  ∧ OpenQuickpickOnSelection.run vEmpty = Except.error PyError.indexError :=
  empty_selection_raises_index_error vEmpty rfl

/-- C6: for the scenario of two regions anchored at raw offsets 10 (row 0)
and 30 (row 2) in a Windows-line-endings document, each command performs
exactly two spawns whose embedded offsets are 10 and 32, in that order. -/
theorem scenario_two_regions_windows :
    OpenCpickOnSelection.run viewScenario
      = Except.ok [{ args := ["cpick", "/tmp/a.txt@10"], shell := true },
                   { args := ["cpick", "/tmp/a.txt@32"], shell := true }]
  ∧ OpenQuickpickOnSelection.run viewScenario
      = Except.ok [{ args := ["quickpick", "/tmp/a.txt@10"], shell := true },
                   { args := ["quickpick", "/tmp/a.txt@32"], shell := true }] :=
  ⟨rfl, rfl⟩

/-- C3: for a non-empty selection of `n` regions, each command performs
exactly `n` spawns, the `i`-th spawn being the one for the `i`-th region of
the selection, so spawns are in selection order. -/
theorem one_spawn_per_region_in_order (view : View) (h : view.sel ≠ []) :
    (∃ l, OpenCpickOnSelection.run view = Except.ok l
        ∧ l.length = view.sel.length
        ∧ ∀ i (hi : i < view.sel.length),
            l.get? i = some (cpickSpawn view (view.sel.get ⟨i, hi⟩)))
  ∧ (∃ l, OpenQuickpickOnSelection.run view = Except.ok l
        ∧ l.length = view.sel.length
        ∧ ∀ i (hi : i < view.sel.length),
            l.get? i = some (quickpickSpawn view (view.sel.get ⟨i, hi⟩))) := by
  refine ⟨⟨view.sel.map (cpickSpawn view), cpick_run_ok view h, by simp, ?_⟩,
          ⟨view.sel.map (quickpickSpawn view), quickpick_run_ok view h, by simp, ?_⟩⟩ <;>
  · intro i hi
    rw [List.get?_map, List.get?_eq_get hi]
    rfl

theorem one_spawn_per_region_in_order_witness :
    (∃ l, OpenCpickOnSelection.run vWin = Except.ok l
        ∧ l.length = vWin.sel.length
        ∧ ∀ i (hi : i < vWin.sel.length),
            l.get? i = some (cpickSpawn vWin (vWin.sel.get ⟨i, hi⟩)))
  ∧ (∃ l, OpenQuickpickOnSelection.run vWin = Except.ok l
        ∧ l.length = vWin.sel.length
        ∧ ∀ i (hi : i < vWin.sel.length),
            l.get? i = some (quickpickSpawn vWin (vWin.sel.get ⟨i, hi⟩))) :=
  one_spawn_per_region_in_order vWin (by decide)

/-- C4: every spawn a command performs invokes its tool with the launch
target as sole further argument: the `Popen` argument list is exactly
`[tool, launchTarget]` with `shell := true`, the target built from some
region of the selection. -/
theorem spawn_is_tool_with_single_target (view : View) (l : List Spawn) :
    (OpenCpickOnSelection.run view = Except.ok l →
        ∀ s ∈ l, ∃ r ∈ view.sel,
          s.args = ["cpick", launchTarget view r.a] ∧ s.shell = true)
  ∧ (OpenQuickpickOnSelection.run view = Except.ok l →
        ∀ s ∈ l, ∃ r ∈ view.sel,
          s.args = ["quickpick", launchTarget view r.a] ∧ s.shell = true) := by
  constructor
  · intro hrun s hs
    by_cases hsel : view.sel = []
    · rw [cpick_run_empty view hsel] at hrun
      exact absurd hrun (by simp)
    · rw [cpick_run_ok view hsel] at hrun
      have hl := Except.ok.inj hrun
      subst hl
      obtain ⟨r, hr, rfl⟩ := List.mem_map.mp hs
      exact ⟨r, hr, rfl, rfl⟩
  · intro hrun s hs
    by_cases hsel : view.sel = []
    · rw [quickpick_run_empty view hsel] at hrun
      exact absurd hrun (by simp)
    · rw [quickpick_run_ok view hsel] at hrun
      have hl := Except.ok.inj hrun
      subst hl
      obtain ⟨r, hr, rfl⟩ := List.mem_map.mp hs
      exact ⟨r, hr, rfl, rfl⟩

theorem spawn_is_tool_with_single_target_witness :
    (∃ r ∈ vWin.sel,
        ({ args := ["cpick", "/t@6"], shell := true } : Spawn).args
            = ["cpick", launchTarget vWin r.a]
      ∧ ({ args := ["cpick", "/t@6"], shell := true } : Spawn).shell = true)
  ∧ (∃ r ∈ vWin.sel,
        ({ args := ["quickpick", "/t@6"], shell := true } : Spawn).args
            = ["quickpick", launchTarget vWin r.a]
      ∧ ({ args := ["quickpick", "/t@6"], shell := true } : Spawn).shell = true) :=
  ⟨(spawn_is_tool_with_single_target vWin
      [{ args := ["cpick", "/t@6"], shell := true }]).1 rfl
      { args := ["cpick", "/t@6"], shell := true } (by simp),
   (spawn_is_tool_with_single_target vWin
      [{ args := ["quickpick", "/t@6"], shell := true }]).2 rfl
      { args := ["quickpick", "/t@6"], shell := true } (by simp)⟩

/-- C1: in a Windows-line-endings document, the offset embedded in the
launch target of the `i`-th spawn of either command is the region's raw
anchor offset plus its row: `b + row`, with `row` the host's row for `b`. -/
theorem windows_offset_adds_row (view : View) (h : view.line_endings = "Windows")
    (i : Nat) (hi : i < view.sel.length) (l l' : List Spawn)
    (hc : OpenCpickOnSelection.run view = Except.ok l)
    (hq : OpenQuickpickOnSelection.run view = Except.ok l') :
    l.get? i = some { args := ["cpick", formatAt (pyStr view.file_name)
        (Nat.repr ((view.sel.get ⟨i, hi⟩).a
          + (view.rowcol (view.sel.get ⟨i, hi⟩).a).1))], shell := true }
  ∧ l'.get? i = some { args := ["quickpick", formatAt (pyStr view.file_name)
        (Nat.repr ((view.sel.get ⟨i, hi⟩).a
          + (view.rowcol (view.sel.get ⟨i, hi⟩).a).1))], shell := true } := by
  have hsel : view.sel ≠ [] := by
    intro hnil
    rw [hnil] at hi
    simp at hi
  rw [cpick_run_ok view hsel] at hc
  rw [quickpick_run_ok view hsel] at hq
  have hlc := Except.ok.inj hc
  have hlq := Except.ok.inj hq
  subst hlc
  subst hlq
  constructor <;>
  · rw [List.get?_map, List.get?_eq_get hi]
    simp [cpickSpawn, quickpickSpawn, launchTarget, adjustOffset_eq, h,
      toString_nat_eq_repr]

theorem windows_offset_adds_row_witness :
    ([{ args := ["cpick", "/t@6"], shell := true }] : List Spawn).get? 0
        = some { args := ["cpick", formatAt (pyStr vWin.file_name)
            (Nat.repr ((vWin.sel.get ⟨0, by decide⟩).a
              + (vWin.rowcol (vWin.sel.get ⟨0, by decide⟩).a).1))], shell := true }
  ∧ ([{ args := ["quickpick", "/t@6"], shell := true }] : List Spawn).get? 0
        = some { args := ["quickpick", formatAt (pyStr vWin.file_name)
            (Nat.repr ((vWin.sel.get ⟨0, by decide⟩).a
              + (vWin.rowcol (vWin.sel.get ⟨0, by decide⟩).a).1))], shell := true } :=
  windows_offset_adds_row vWin rfl 0 (by decide)
    [{ args := ["cpick", "/t@6"], shell := true }]
    [{ args := ["quickpick", "/t@6"], shell := true }] rfl rfl

/-- C2: in a document whose line-ending convention is not Windows-style,
the offset embedded in the launch target of the `i`-th spawn of either
command is the region's raw anchor offset, unchanged, whatever row and
column the host reports for it. -/
theorem non_windows_offset_unchanged (view : View) (h : view.line_endings ≠ "Windows")
    (i : Nat) (hi : i < view.sel.length) (l l' : List Spawn)
    (hc : OpenCpickOnSelection.run view = Except.ok l)
    (hq : OpenQuickpickOnSelection.run view = Except.ok l') :
    l.get? i = some { args := ["cpick", formatAt (pyStr view.file_name)
        (Nat.repr (view.sel.get ⟨i, hi⟩).a)], shell := true }
  ∧ l'.get? i = some { args := ["quickpick", formatAt (pyStr view.file_name)
        (Nat.repr (view.sel.get ⟨i, hi⟩).a)], shell := true } := by
  have hsel : view.sel ≠ [] := by
    intro hnil
    rw [hnil] at hi
    simp at hi
  rw [cpick_run_ok view hsel] at hc
  rw [quickpick_run_ok view hsel] at hq
  have hlc := Except.ok.inj hc
  have hlq := Except.ok.inj hq
  subst hlc
  subst hlq
  constructor <;>
  · rw [List.get?_map, List.get?_eq_get hi]
    simp [cpickSpawn, quickpickSpawn, launchTarget, adjustOffset_eq, h,
      toString_nat_eq_repr]

theorem non_windows_offset_unchanged_witness :
    ([{ args := ["cpick", "/t@7"], shell := true }] : List Spawn).get? 0
        = some { args := ["cpick", formatAt (pyStr vUnix.file_name)
            (Nat.repr (vUnix.sel.get ⟨0, by decide⟩).a)], shell := true }
  ∧ ([{ args := ["quickpick", "/t@7"], shell := true }] : List Spawn).get? 0
        = some { args := ["quickpick", formatAt (pyStr vUnix.file_name)
            (Nat.repr (vUnix.sel.get ⟨0, by decide⟩).a)], shell := true } :=
  non_windows_offset_unchanged vUnix (by decide) 0 (by decide)
    [{ args := ["cpick", "/t@7"], shell := true }]
    [{ args := ["quickpick", "/t@7"], shell := true }] rfl rfl

/-- C5: the launch target is exactly the document path, one at-sign, and
the decimal rendering of the adjusted offset: the offset part is non-empty,
consists of decimal digit characters only, the separator is the only
at-sign after the path, and neither the separator nor the offset part
contains any whitespace, so the construction adds no surrounding
whitespace around `<path>@<offset>`. -/
theorem launch_target_shape (view : View) (b : Nat) :
    launchTarget view b
        = pyStr view.file_name ++ "@" ++ Nat.repr (adjustOffset view b)
  ∧ (Nat.repr (adjustOffset view b)).data ≠ []
  ∧ (∀ c ∈ (Nat.repr (adjustOffset view b)).data, c ∈ decDigits)
  ∧ ('@' :: (Nat.repr (adjustOffset view b)).data).count '@' = 1
  ∧ (∀ c ∈ '@' :: (Nat.repr (adjustOffset view b)).data, c.isWhitespace = false) := by
  refine ⟨rfl, repr_data_ne_nil _, repr_data_mem_decDigits _, ?_, ?_⟩
  · have h0 : (Nat.repr (adjustOffset view b)).data.count '@' = 0 :=
      List.count_eq_zero.mpr fun hmem =>
        decDigits_ne_atSign (repr_data_mem_decDigits _ '@' hmem) rfl
    rw [List.count_cons_self, h0]
  · intro c hc
    rcases List.mem_cons.mp hc with rfl | hmem
    · rfl
    · exact decDigits_not_ws (repr_data_mem_decDigits _ c hmem)

/-- C7: only each region's anchor `a` reaches the spawned commands. Two
views that agree on the file name, the line-ending convention, the host
decomposition, and the sequence of region anchors — but may differ in every
region's end point `b` — produce identical results for both commands. -/
theorem run_ignores_region_end (v w : View)
    (hf : v.file_name = w.file_name) (he : v.line_endings = w.line_endings)
    (hrc : v.rowcol = w.rowcol)
    (ha : v.sel.map Region.a = w.sel.map Region.a) :
    OpenCpickOnSelection.run v = OpenCpickOnSelection.run w
  ∧ OpenQuickpickOnSelection.run v = OpenQuickpickOnSelection.run w := by
  have hlt : launchTarget v = launchTarget w := by
    funext b
    simp [launchTarget, adjustOffset_eq, hf, he, hrc]
  have hcs : cpickSpawn v = cpickSpawn w := by
    funext r
    simp only [cpickSpawn, hlt]
  have hqs : quickpickSpawn v = quickpickSpawn w := by
    funext r
    simp only [quickpickSpawn, hlt]
  have hlen : v.sel.length = w.sel.length := by
    have hl := congrArg List.length ha
    simpa using hl
  by_cases hsel : v.sel = []
  · have hsel' : w.sel = [] := by
      rw [← List.length_eq_zero, ← hlen, hsel]
      rfl
    rw [cpick_run_empty v hsel, cpick_run_empty w hsel',
      quickpick_run_empty v hsel, quickpick_run_empty w hsel']
    exact ⟨rfl, rfl⟩
  · have hsel' : w.sel ≠ [] := by
      intro hw
      apply hsel
      rw [← List.length_eq_zero, hlen, hw]
      rfl
    have hmc1 : v.sel.map (cpickSpawn w)
        = (v.sel.map Region.a).map (fun a => cpickSpawn w ⟨a, 0⟩) := by
      rw [List.map_map]
      rfl
    have hmc2 : w.sel.map (cpickSpawn w)
        = (w.sel.map Region.a).map (fun a => cpickSpawn w ⟨a, 0⟩) := by
      rw [List.map_map]
      rfl
    have hmq1 : v.sel.map (quickpickSpawn w)
        = (v.sel.map Region.a).map (fun a => quickpickSpawn w ⟨a, 0⟩) := by
      rw [List.map_map]
      rfl
    have hmq2 : w.sel.map (quickpickSpawn w)
        = (w.sel.map Region.a).map (fun a => quickpickSpawn w ⟨a, 0⟩) := by
      rw [List.map_map]
      rfl
    rw [cpick_run_ok v hsel, cpick_run_ok w hsel',
      quickpick_run_ok v hsel, quickpick_run_ok w hsel']
    rw [hcs, hqs, hmc1, hmc2, hmq1, hmq2, ha]
    exact ⟨rfl, rfl⟩

theorem run_ignores_region_end_witness :
    OpenCpickOnSelection.run vEndA = OpenCpickOnSelection.run vEndB
  ∧ OpenQuickpickOnSelection.run vEndA = OpenQuickpickOnSelection.run vEndB :=
  run_ignores_region_end vEndA vEndB rfl rfl rfl rfl

/-- C8: the two plugins are behaviourally equivalent up to the tool name:
on every view they succeed or fail together, and on success each produces
the other's spawn list with only the leading tool name of each `Popen`
argument list replaced — same launch targets, same count, same order. -/
theorem plugins_equivalent_up_to_tool (view : View) :
    OpenCpickOnSelection.run view
      = (OpenQuickpickOnSelection.run view).map
          (List.map fun s => { args := "cpick" :: s.args.tail, shell := s.shell })
  ∧ OpenQuickpickOnSelection.run view
      = (OpenCpickOnSelection.run view).map
          (List.map fun s => { args := "quickpick" :: s.args.tail, shell := s.shell }) := by
  by_cases hsel : view.sel = []
  · rw [cpick_run_empty view hsel, quickpick_run_empty view hsel]
    exact ⟨rfl, rfl⟩
  · constructor
    · rw [cpick_run_ok view hsel, quickpick_run_ok view hsel, except_map_ok,
        List.map_map]
      rfl
    · rw [cpick_run_ok view hsel, quickpick_run_ok view hsel, except_map_ok,
        List.map_map]
      rfl

/-- C9: each region's launch is independent and no spawn outcome is
observed: whatever fate `popen` assigns to each spawned process, both
commands attempt exactly the spawns they attempt with any other assignment
`popen'` — a failed launch never suppresses the later ones — and the
command's own result never reports any of those outcomes. -/
theorem spawns_independent_of_outcomes (view : View) (popen popen' : Spawn → Bool) :
    (OpenCpickOnSelection.runPopen view popen).map (List.map Prod.fst)
      = OpenCpickOnSelection.run view
  ∧ (OpenQuickpickOnSelection.runPopen view popen).map (List.map Prod.fst)
      = OpenQuickpickOnSelection.run view
  ∧ (OpenCpickOnSelection.runPopen view popen).map (List.map Prod.fst)
      = (OpenCpickOnSelection.runPopen view popen').map (List.map Prod.fst)
  ∧ (OpenQuickpickOnSelection.runPopen view popen).map (List.map Prod.fst)
      = (OpenQuickpickOnSelection.runPopen view popen').map (List.map Prod.fst) := by
  by_cases hsel : view.sel = []
  · rw [cpick_runPopen_empty view popen hsel, quickpick_runPopen_empty view popen hsel,
      cpick_runPopen_empty view popen' hsel, quickpick_runPopen_empty view popen' hsel,
      cpick_run_empty view hsel, quickpick_run_empty view hsel]
    exact ⟨rfl, rfl, rfl, rfl⟩
  · rw [cpick_runPopen_ok view popen hsel, quickpick_runPopen_ok view popen hsel,
      cpick_runPopen_ok view popen' hsel, quickpick_runPopen_ok view popen' hsel,
      cpick_run_ok view hsel, quickpick_run_ok view hsel]
    refine ⟨?_, ?_, ?_, ?_⟩ <;>
    · rw [except_map_ok, List.map_map]
      try rw [except_map_ok, List.map_map]
      rfl
